import Mathlib

/-!
Shallow embedding of `src/main.py` (an AI Telegram relay bot).

Python exceptions are modelled with `Except PyErr`; outbound side effects
(log lines, chat actions, replies) are modelled as an emitted list of
`Action` values.  The OpenAI completion endpoint and the Python builtins
`int` / `float` are external services, modelled as function parameters.
Python float literals are embedded as rationals.
-/

namespace AiTelegramBot

/-- A Python exception value, as far as this program distinguishes them. -/
inductive PyErr where
  /-- any exception raised by the OpenAI client call -/
  | apiError (msg : String)
  /-- attribute access on `None` (e.g. `.strip()` of a `None` content) -/
  | attributeError
  /-- `choices[0]` on an empty list -/
  | indexError
  deriving DecidableEq, Repr

/-- An outbound side effect of a handler: a log line or a Telegram send. -/
inductive Action where
  | log_info (text : String)
  | log_error (text : String)
  /-- `chat.send_action(action=...)` -/
  | send_chat_action (chat_id : Int) (kind : String)
  /-- `reply_text(text, parse_mode=...)` -/
  | reply_text (chat_id : Int) (text : String) (parse_mode : Option String)
  deriving DecidableEq, Repr

/-- The process environment, as read by `os.getenv`: absent variables give `None`. -/
def Env : Type := String → Option String

/-- Python truthiness of an `Optional[str]`: `None` and the empty string are falsy. -/
def truthy : Option String → Bool
  | none => false
  | some s => !s.isEmpty

/-- `AI_MODEL = os.getenv('AI_MODEL', 'gpt-3.5-turbo')` (line 23). -/
def AI_MODEL (env : Env) : String :=
  (env "AI_MODEL").getD "gpt-3.5-turbo"

/-- `AI_MAX_TOKENS = int(os.getenv('AI_MAX_TOKENS', 500))` (line 24).
`pint` models the Python builtin `int` on strings; `int(500)` is `500`
without any parsing.  A parse failure is a `ValueError` at import time. -/
def AI_MAX_TOKENS (env : Env) (pint : String → Except String Int) : Except String Int :=
  match env "AI_MAX_TOKENS" with
  | none => .ok 500
  | some s => pint s

/-- `AI_TEMPERATURE = float(os.getenv('AI_TEMPERATURE', 0.7))` (line 25).
`pfloat` models the Python builtin `float` on strings; `float(0.7)` is `0.7`. -/
def AI_TEMPERATURE (env : Env) (pfloat : String → Except String ℚ) : Except String ℚ :=
  match env "AI_TEMPERATURE" with
  | none => .ok (7/10 : ℚ)
  | some s => pfloat s

/-- The generation parameters the module-level configuration resolves to. -/
structure Config where
  ai_model : String
  ai_max_tokens : Int
  ai_temperature : ℚ
  deriving DecidableEq, Repr

/-- The module-level environment check (lines 28–34): the emitted log lines
together with either a `ValueError` message or success.  `telegram_token` and
`openai_api_key` are `os.getenv('TELEGRAM_BOT_TOKEN')` and
`os.getenv('OPENAI_API_KEY')`. -/
def check_env (telegram_token openai_api_key : Option String) :
    List Action × Except String Unit :=
  if !truthy telegram_token then
    ([.log_error "❌ TELEGRAM_BOT_TOKEN nu este setat în .env"],
     .error "TELEGRAM_BOT_TOKEN lipsă")
  else if !truthy openai_api_key then
    ([.log_error "❌ OPENAI_API_KEY nu este setat în .env"],
     .error "OPENAI_API_KEY lipsă")
  else ([], .ok ())

/-- Whether process startup ever reaches the polling receive loop
(`start_polling`, line 202): module import runs the environment check first,
and an uncaught `ValueError` there ends the process before `main()` runs. -/
def polling_entered (telegram_token openai_api_key : Option String) : Bool :=
  match (check_env telegram_token openai_api_key).2 with
  | .ok _ => true
  | .error _ => false

/-- One role-tagged message of the completion request. -/
structure ChatMessage where
  role : String
  content : String
  deriving DecidableEq, Repr

/-- The payload of `openai_client.chat.completions.create` (lines 53–61). -/
structure CompletionRequest where
  model : String
  messages : List ChatMessage
  max_tokens : Int
  temperature : ℚ
  deriving DecidableEq, Repr

/-- `message` of one choice of the API response; `content` is `Optional[str]`. -/
structure ApiChoiceMessage where
  content : Option String
  deriving DecidableEq, Repr

/-- One element of `response.choices`. -/
structure ApiChoice where
  message : ApiChoiceMessage
  deriving DecidableEq, Repr

/-- The completion API response object. -/
structure ApiResponse where
  choices : List ApiChoice
  deriving DecidableEq, Repr

/-- The completion endpoint: may return a response or raise. -/
def ApiBehaviour : Type := CompletionRequest → Except PyErr ApiResponse

/-- The f-string system prompt of `get_ai_response` (lines 46–51),
with `user_name` interpolated. -/
def system_prompt (user_name : String) : String :=
  "Ești un asistent AI prietenos într-un chat Telegram.\nUtilizatorul se numește "
  ++ user_name ++
  ".\nRăspunde într-un mod conversațional, prietenos și util.\nFii concis dar informativ.\nLimba: română (dacă utilizatorul scrie în română) sau engleză.\n"

/-- The request `get_ai_response` passes to
`openai_client.chat.completions.create` (lines 53–61). -/
def build_request (cfg : Config) (user_message user_name : String) : CompletionRequest :=
  { model := cfg.ai_model
    messages := [⟨"system", system_prompt user_name⟩, ⟨"user", user_message⟩]
    max_tokens := cfg.ai_max_tokens
    temperature := cfg.ai_temperature }

/-- Python `str.strip()` with no argument: remove leading and trailing
whitespace. -/
def pystrip (s : String) : String :=
  ⟨((s.data.dropWhile Char.isWhitespace).reverse.dropWhile Char.isWhitespace).reverse⟩

/-- The `try` body of `get_ai_response` (lines 44–63): call the endpoint, then
`response.choices[0].message.content.strip()`.  `choices[0]` of an empty list
raises `IndexError`; `.strip()` of a `None` content raises `AttributeError`. -/
def get_ai_response_try (cfg : Config) (api : ApiBehaviour)
    (user_message user_name : String) : Except PyErr String :=
  match api (build_request cfg user_message user_name) with
  | .error e => .error e
  | .ok response =>
    match response.choices with
    | [] => .error .indexError
    | choice :: _ =>
      match choice.message.content with
      | none => .error .attributeError
      | some content => .ok (pystrip content)

/-- The fallback string returned by the `except` branch (line 67). -/
def fallback_string : String := "⚠️ Scuze, am întâmpinat o eroare. Încearcă din nou."

/-- `get_ai_response` (lines 40–67): the `try` body with every exception
caught, logged, and replaced by `fallback_string`. -/
def get_ai_response (cfg : Config) (api : ApiBehaviour)
    (user_message user_name : String) : Except PyErr String :=
  match get_ai_response_try cfg api user_message user_name with
  | .ok s => .ok s
  | .error _ => .ok fallback_string

/-- `get_ai_response` as called with the `user_name` argument omitted:
the Python default parameter value is `"User"` (line 40). -/
def get_ai_response_omitted (cfg : Config) (api : ApiBehaviour)
    (user_message : String) : Except PyErr String :=
  get_ai_response cfg api user_message "User"

/-- `update.effective_user`, as far as the handlers read it. -/
structure TgUser where
  first_name : String
  deriving DecidableEq, Repr

/-- A Telegram message, as far as the handlers read it. -/
structure TgMessage where
  text : String
  chat_id : Int
  deriving DecidableEq, Repr

/-- An inbound `Update`; each attribute the handlers dereference may be `None`. -/
structure TgUpdate where
  message : Option TgMessage
  effective_user : Option TgUser
  effective_message : Option TgMessage
  deriving DecidableEq, Repr

/-- The `/start` welcome text after `user.first_name` (lines 73–87). -/
def welcome_tail : String :=
  "!\n\nEu sunt asistentul tău AI. Pot să:\n• 💬 Vorbesc cu tine despre orice\n• 🧠 Îți răspund la întrebări\n• 📝 Te ajut cu sfaturi și idei\n\nTrimite-mi un mesaj și îți voi răspunde!\n    \nComenzi disponibile:\n/start - Acest mesaj\n/help - Ajutor și informații\n/about - Despre acest bot\n    "

/-- The full `/start` welcome f-string (lines 73–87). -/
def welcome_message (first_name : String) : String :=
  "\n👋 Bun venit, " ++ first_name ++ welcome_tail

/-- `start_command` (lines 70–88): dereferences `update.effective_user`
(in the f-string) and `update.message` (for the reply); either being `None`
raises `AttributeError`. -/
def start_command (update : TgUpdate) : Except PyErr (List Action) :=
  match update.effective_user with
  | none => .error .attributeError
  | some user =>
    match update.message with
    | none => .error .attributeError
    | some m => .ok [.reply_text m.chat_id (welcome_message user.first_name) none]

/-- The static `/help` text (lines 92–111). -/
def help_text : String :=
  "\n🤖 **Cum să folosești acest bot:**\n\n1. Scrie-mi orice mesaj și voi răspunde folosind AI\n2. Poți să mă întrebi orice:\n   - Întrebări generale\n   - Sfaturi și recomandări\n   - Explicații și definiții\n   - Conversații libere\n\n🔧 **Comenzi:**\n/start - Mesaj de bun venit\n/help - Acest mesaj de ajutor\n/about - Informații despre bot\n\n💡 **Sfaturi:**\n• Folosește româna sau engleza\n• Fii specific în întrebări pentru răspunsuri mai bune\n• Botul nu reține contextul între mesaje (versiune simplă)\n    "

/-- `help_command` (lines 90–112): replies with the static help text,
`parse_mode='Markdown'`. -/
def help_command (update : TgUpdate) : Except PyErr (List Action) :=
  match update.message with
  | none => .error .attributeError
  | some m => .ok [.reply_text m.chat_id help_text (some "Markdown")]

/-- The static `/about` text (lines 116–133). -/
def about_text : String :=
  "\n🤖 **AI Telegram Bot**\n    \nVersiune: 1.0\nCreator: [Numele tău]\n    \n💻 **Tehnologii:**\n• Python + python-telegram-bot\n• OpenAI GPT API\n• Deploy pe Render/Railway\n    \n🔐 **Confidențialitate:**\n• Conversațiile sunt procesate de OpenAI\n• Nu stochez mesaje permanente\n• Cod sursă disponibil pe GitHub\n    \n✉️ Contact: [email-ul tău]\n    "

/-- `about_command` (lines 114–134): replies with the static about text. -/
def about_command (update : TgUpdate) : Except PyErr (List Action) :=
  match update.message with
  | none => .error .attributeError
  | some m => .ok [.reply_text m.chat_id about_text none]

/-- `handle_message` (lines 136–150): log the inbound message, send the
`typing` chat action, call `get_ai_response`, reply with its result. -/
def handle_message (cfg : Config) (api : ApiBehaviour) (update : TgUpdate) :
    Except PyErr (List Action) :=
  match update.message with
  | none => .error .attributeError
  | some m =>
    match update.effective_user with
    | none => .error .attributeError
    | some user =>
      match get_ai_response cfg api m.text user.first_name with
      | .error e => .error e
      | .ok ai_response =>
        .ok [.log_info ("📩 Mesaj de la " ++ user.first_name ++ ": " ++ m.text),
             .send_chat_action m.chat_id "typing",
             .reply_text m.chat_id ai_response none]

/-- The fixed apology text of `error_handler` (lines 157–159). -/
def error_apology : String := "❌ A apărut o eroare. Te rog încearcă din nou."

/-- `error_handler` (lines 152–159): log the error, and reply with the fixed
apology only when `update` is not `None` and has an `effective_message`.
Its body has no raising operation, so it always returns normally. -/
def error_handler (update : Option TgUpdate) (error : String) :
    Except PyErr (List Action) :=
  .ok (Action.log_error ("❌ Eroare: " ++ error) ::
    match update with
    | none => []
    | some u =>
      match u.effective_message with
      | none => []
      | some m => [Action.reply_text m.chat_id error_apology none])

/-- The texts of the `reply_text` sends of an action trace, in order. -/
def reply_texts : List Action → List String
  | [] => []
  | .reply_text _ t _ :: rest => t :: reply_texts rest
  | .log_info _ :: rest => reply_texts rest
  | .log_error _ :: rest => reply_texts rest
  | .send_chat_action _ _ :: rest => reply_texts rest

/-- The reply texts of a handler outcome; a raised exception sends nothing. -/
def handler_reply_texts (r : Except PyErr (List Action)) : List String :=
  match r with
  | .ok as => reply_texts as
  | .error _ => []

/-- A constant completion-endpoint behaviour, for concrete evaluations. -/
def api_const (r : Except PyErr ApiResponse) : ApiBehaviour := fun _ => r

/-- A one-choice API response with the given message content. -/
def resp_of (content : Option String) : ApiResponse := ⟨[⟨⟨content⟩⟩]⟩

/-- A concrete configuration equal to the all-defaults one. -/
def cfg0 : Config := ⟨"gpt-3.5-turbo", 500, 7/10⟩

/-- A concrete inbound text update from "Maria" in chat 1. -/
def update0 : TgUpdate := ⟨some ⟨"Ce faci?", 1⟩, some ⟨"Maria"⟩, some ⟨"Ce faci?", 1⟩⟩

/-- A second concrete inbound text update from "Maria" in chat 2. -/
def update1 : TgUpdate := ⟨some ⟨"Salut!", 2⟩, some ⟨"Maria"⟩, some ⟨"Salut!", 2⟩⟩

/-- An environment with every variable unset. -/
def env_empty : Env := fun _ => none

/-- A concrete stand-in for the `int` builtin. -/
def pint0 : String → Except String Int := fun _ => .ok 250

/-- A concrete stand-in for the `float` builtin. -/
def pfloat0 : String → Except String ℚ := fun _ => .ok (1/2 : ℚ)

/-- C1: for every endpoint behaviour and input pair, `get_ai_response` never
propagates an exception to its caller: it returns `.ok` of either the `try`
body's model-generated text or, on any failure, the fixed fallback string
"⚠️ Scuze, am întâmpinat o eroare. Încearcă din nou." — the `Except` error
branch is unreachable. -/
theorem C1_get_ai_response_infallible (cfg : Config) (api : ApiBehaviour)
    (user_message user_name : String) :
    ∃ s, get_ai_response cfg api user_message user_name = .ok s ∧
      (get_ai_response_try cfg api user_message user_name = .ok s ∨
        s = fallback_string) := by
  cases h : get_ai_response_try cfg api user_message user_name with
  | ok s => exact ⟨s, by simp [get_ai_response, h], Or.inl rfl⟩
  | error e => exact ⟨fallback_string, by simp [get_ai_response, h], Or.inr rfl⟩

/-- C5: the Completion Client builds exactly a two-message prompt — one
system message interpolating the user's name into the fixed template and one
user message carrying the raw input text verbatim — passes the configured
model, max-token and temperature values, consults the endpoint only on that
request, and when the user-name argument is omitted it defaults to "User". -/
theorem C5_prompt_shape (cfg : Config) (api api2 : ApiBehaviour)
    (user_message user_name : String)
    (hsame : api (build_request cfg user_message user_name)
           = api2 (build_request cfg user_message user_name)) :
    (build_request cfg user_message user_name).messages
      = [⟨"system", system_prompt user_name⟩, ⟨"user", user_message⟩]
  ∧ (∃ p q, system_prompt user_name = p ++ user_name ++ q)
  ∧ (build_request cfg user_message user_name).model = cfg.ai_model
  ∧ (build_request cfg user_message user_name).max_tokens = cfg.ai_max_tokens
  ∧ (build_request cfg user_message user_name).temperature = cfg.ai_temperature
  ∧ get_ai_response cfg api user_message user_name
      = get_ai_response cfg api2 user_message user_name
  ∧ get_ai_response_omitted cfg api user_message
      = get_ai_response cfg api user_message "User" := by
  refine ⟨rfl,
    ⟨"Ești un asistent AI prietenos într-un chat Telegram.\nUtilizatorul se numește ",
      ".\nRăspunde într-un mod conversațional, prietenos și util.\nFii concis dar informativ.\nLimba: română (dacă utilizatorul scrie în română) sau engleză.\n",
      rfl⟩,
    rfl, rfl, rfl, ?_, rfl⟩
  simp [get_ai_response, get_ai_response_try, hsame]

/-- Witness for C5 at concrete inputs, the endpoint-dependence hypothesis
discharged by evaluation. -/
theorem C5_prompt_shape_witness :
    (build_request cfg0 "Ce faci?" "Maria").messages
      = [⟨"system", system_prompt "Maria"⟩, ⟨"user", "Ce faci?"⟩] :=
  (C5_prompt_shape cfg0 (api_const (.ok (resp_of (some "Bine."))))
    (api_const (.ok (resp_of (some "Bine.")))) "Ce faci?" "Maria" rfl).1

/-- C9: although annotated `Optional[str]`, `get_ai_response` always returns
a string and never `None`: on success the model output with leading and
trailing whitespace stripped, while an endpoint failure, an empty `choices`
list, and a `None` content (whose `.strip()` raises inside the `try` block)
all resolve to the fixed fallback string. -/
theorem C9_never_none (cfg : Config) (api : ApiBehaviour)
    (user_message user_name : String) :
    (∃ s, get_ai_response cfg api user_message user_name = .ok s)
  ∧ (∀ e, api (build_request cfg user_message user_name) = .error e →
      get_ai_response cfg api user_message user_name = .ok fallback_string)
  ∧ (∀ r, api (build_request cfg user_message user_name) = .ok r →
      r.choices = [] →
      get_ai_response cfg api user_message user_name = .ok fallback_string)
  ∧ (∀ r c rest, api (build_request cfg user_message user_name) = .ok r →
      r.choices = c :: rest → c.message.content = none →
      get_ai_response cfg api user_message user_name = .ok fallback_string)
  ∧ (∀ r c rest s, api (build_request cfg user_message user_name) = .ok r →
      r.choices = c :: rest → c.message.content = some s →
      get_ai_response cfg api user_message user_name = .ok (pystrip s)) := by
  refine ⟨?_, ?_, ?_, ?_, ?_⟩
  · cases h : get_ai_response_try cfg api user_message user_name with
    | ok s => exact ⟨s, by simp [get_ai_response, h]⟩
    | error e => exact ⟨fallback_string, by simp [get_ai_response, h]⟩
  · intro e he
    simp [get_ai_response, get_ai_response_try, he]
  · intro r hr hc
    simp [get_ai_response, get_ai_response_try, hr, hc]
  · intro r c rest hr hc hnone
    simp [get_ai_response, get_ai_response_try, hr, hc, hnone]
  · intro r c rest s hr hc hsome
    simp [get_ai_response, get_ai_response_try, hr, hc, hsome]

/-- Witness for C9: a `None` content makes `get_ai_response` return the
fallback string rather than `None` or an exception. -/
theorem C9_never_none_witness :
    get_ai_response cfg0 (api_const (.ok (resp_of none))) "Ce faci?" "Maria"
      = .ok fallback_string :=
  (C9_never_none cfg0 (api_const (.ok (resp_of none))) "Ce faci?" "Maria").2.2.2.1
    (resp_of none) ⟨⟨none⟩⟩ [] rfl rfl rfl

/-- C2 as stated is false: with the endpoint returning a whitespace-only
content, the relay's single reply text is the empty string, so the reply is
not "never empty". -/
theorem C2_counterexample :
    handler_reply_texts
      (handle_message cfg0 (api_const (.ok (resp_of (some "   ")))) update0)
      = [""] := by
  rfl

/-- C2 (amended): for every non-command text message — an update carrying a
message and an effective user — `handle_message` returns normally (never
raises) and emits exactly the inbound log line, one "typing" chat action to
the originating chat, and then exactly one reply to the same chat, whose
text is the Completion Client's result: the stripped model-generated text or
the fixed fallback string.  (The stripped model text can be empty, so the
reply is not guaranteed non-empty.) -/
theorem C2_relay_amended (cfg : Config) (api : ApiBehaviour) (u : TgUpdate)
    (m : TgMessage) (user : TgUser)
    (hm : u.message = some m) (hu : u.effective_user = some user) :
    ∃ reply,
      handle_message cfg api u =
        .ok [.log_info ("📩 Mesaj de la " ++ user.first_name ++ ": " ++ m.text),
             .send_chat_action m.chat_id "typing",
             .reply_text m.chat_id reply none]
    ∧ (get_ai_response_try cfg api m.text user.first_name = .ok reply ∨
        reply = fallback_string) := by
  cases h : get_ai_response_try cfg api m.text user.first_name with
  | ok s =>
    exact ⟨s, by simp [handle_message, hm, hu, get_ai_response, h], Or.inl rfl⟩
  | error e =>
    exact ⟨fallback_string,
      by simp [handle_message, hm, hu, get_ai_response, h], Or.inr rfl⟩

/-- Witness for the amended C2 at a concrete update and endpoint. -/
theorem C2_relay_amended_witness :
    ∃ reply,
      handle_message cfg0 (api_const (.ok (resp_of (some "  Bine, mulțumesc!  "))))
          update0 =
        .ok [.log_info ("📩 Mesaj de la " ++ "Maria" ++ ": " ++ "Ce faci?"),
             .send_chat_action 1 "typing",
             .reply_text 1 reply none]
    ∧ (get_ai_response_try cfg0
          (api_const (.ok (resp_of (some "  Bine, mulțumesc!  "))))
          "Ce faci?" "Maria" = .ok reply ∨
        reply = fallback_string) :=
  C2_relay_amended cfg0 (api_const (.ok (resp_of (some "  Bine, mulțumesc!  "))))
    update0 ⟨"Ce faci?", 1⟩ ⟨"Maria"⟩ rfl rfl

/-- C3: `error_handler` always returns normally, always logs the error, and
sends the fixed apology to the originating chat exactly when a message
context is available — the update is present and carries an effective
message; otherwise it only logs and sends nothing. -/
theorem C3_error_sink (update : Option TgUpdate) (error : String) :
    (∃ as, error_handler update error = .ok as ∧
        Action.log_error ("❌ Eroare: " ++ error) ∈ as)
  ∧ (∀ u m, update = some u → u.effective_message = some m →
      error_handler update error =
        .ok [.log_error ("❌ Eroare: " ++ error),
             .reply_text m.chat_id error_apology none])
  ∧ (update = none →
      error_handler update error = .ok [.log_error ("❌ Eroare: " ++ error)])
  ∧ (∀ u, update = some u → u.effective_message = none →
      error_handler update error = .ok [.log_error ("❌ Eroare: " ++ error)]) := by
  refine ⟨?_, ?_, ?_, ?_⟩
  · refine ⟨_, rfl, ?_⟩
    simp [error_handler]
  · intro u m hu hm
    simp [error_handler, hu, hm]
  · intro h
    simp [error_handler, h]
  · intro u hu hm
    simp [error_handler, hu, hm]

/-- Witness for C3: a present message context receives the apology, an
absent update only logs. -/
theorem C3_error_sink_witness :
    error_handler (some update0) "boom" =
      .ok [.log_error ("❌ Eroare: " ++ "boom"),
           .reply_text 1 error_apology none]
  ∧ error_handler none "boom" = .ok [.log_error ("❌ Eroare: " ++ "boom")] :=
  ⟨(C3_error_sink (some update0) "boom").2.1 update0 ⟨"Ce faci?", 1⟩ rfl rfl,
   (C3_error_sink none "boom").2.2.1 rfl⟩

/-- C4: when `TELEGRAM_BOT_TOKEN` or `OPENAI_API_KEY` is unset or empty, the
module-level check logs which variable is missing and raises `ValueError`,
so the polling receive loop is never entered; when both are non-empty the
check passes and startup proceeds past it. -/
theorem C4_env_check (t k : Option String) :
    (truthy t = false →
        check_env t k =
          ([.log_error "❌ TELEGRAM_BOT_TOKEN nu este setat în .env"],
           .error "TELEGRAM_BOT_TOKEN lipsă")
      ∧ polling_entered t k = false)
  ∧ (truthy t = true → truthy k = false →
        check_env t k =
          ([.log_error "❌ OPENAI_API_KEY nu este setat în .env"],
           .error "OPENAI_API_KEY lipsă")
      ∧ polling_entered t k = false)
  ∧ (truthy t = true → truthy k = true →
        check_env t k = ([], .ok ()) ∧ polling_entered t k = true) := by
  refine ⟨?_, ?_, ?_⟩
  · intro ht
    constructor <;> simp [check_env, polling_entered, ht]
  · intro ht hk
    constructor <;> simp [check_env, polling_entered, ht, hk]
  · intro ht hk
    constructor <;> simp [check_env, polling_entered, ht, hk]

/-- Witness for C4: a missing bot token, an empty API key, and a fully set
environment, each at concrete values. -/
theorem C4_env_check_witness :
    (check_env none (some "sk-abc") =
        ([.log_error "❌ TELEGRAM_BOT_TOKEN nu este setat în .env"],
         .error "TELEGRAM_BOT_TOKEN lipsă")
      ∧ polling_entered none (some "sk-abc") = false)
  ∧ (check_env (some "123:ABC") (some "") =
        ([.log_error "❌ OPENAI_API_KEY nu este setat în .env"],
         .error "OPENAI_API_KEY lipsă")
      ∧ polling_entered (some "123:ABC") (some "") = false)
  ∧ (check_env (some "123:ABC") (some "sk-abc") = ([], .ok ())
      ∧ polling_entered (some "123:ABC") (some "sk-abc") = true) :=
  ⟨(C4_env_check none (some "sk-abc")).1 rfl,
   (C4_env_check (some "123:ABC") (some "")).2.1 rfl rfl,
   (C4_env_check (some "123:ABC") (some "sk-abc")).2.2 rfl rfl⟩

/-- C6: the three command responders are pure functions of the sender's
first name: on any two well-formed updates whose senders share a first name,
each responder yields byte-identical reply text — `/start` the welcome
template over the name, `/help` and `/about` fixed constants — and none of
them takes the endpoint behaviour or configuration as an input. -/
theorem C6_responders_pure (u₁ u₂ : TgUpdate) (m₁ m₂ : TgMessage)
    (user₁ user₂ : TgUser)
    (hm₁ : u₁.message = some m₁) (hm₂ : u₂.message = some m₂)
    (hu₁ : u₁.effective_user = some user₁) (hu₂ : u₂.effective_user = some user₂)
    (hname : user₁.first_name = user₂.first_name) :
    handler_reply_texts (start_command u₁) = handler_reply_texts (start_command u₂)
  ∧ handler_reply_texts (start_command u₁) = [welcome_message user₁.first_name]
  ∧ handler_reply_texts (help_command u₁) = handler_reply_texts (help_command u₂)
  ∧ handler_reply_texts (help_command u₁) = [help_text]
  ∧ handler_reply_texts (about_command u₁) = handler_reply_texts (about_command u₂)
  ∧ handler_reply_texts (about_command u₁) = [about_text] := by
  simp [start_command, help_command, about_command, handler_reply_texts,
    reply_texts, hm₁, hm₂, hu₁, hu₂, hname]

/-- Witness for C6: two distinct updates from the same sender name produce
identical reply texts for all three responders. -/
theorem C6_responders_pure_witness :
    (handler_reply_texts (start_command update0)
        = handler_reply_texts (start_command update1))
  ∧ (handler_reply_texts (help_command update0)
        = handler_reply_texts (help_command update1))
  ∧ (handler_reply_texts (about_command update0)
        = handler_reply_texts (about_command update1)) :=
  ⟨(C6_responders_pure update0 update1 ⟨"Ce faci?", 1⟩ ⟨"Salut!", 2⟩
      ⟨"Maria"⟩ ⟨"Maria"⟩ rfl rfl rfl rfl rfl).1,
   (C6_responders_pure update0 update1 ⟨"Ce faci?", 1⟩ ⟨"Salut!", 2⟩
      ⟨"Maria"⟩ ⟨"Maria"⟩ rfl rfl rfl rfl rfl).2.2.1,
   (C6_responders_pure update0 update1 ⟨"Ce faci?", 1⟩ ⟨"Salut!", 2⟩
      ⟨"Maria"⟩ ⟨"Maria"⟩ rfl rfl rfl rfl rfl).2.2.2.2.1⟩

/-- C7: for every sender first name, the `/start` reply text contains that
first name and mentions each of the three commands `/start`, `/help` and
`/about`. -/
theorem C7_start_reply (u : TgUpdate) (m : TgMessage) (user : TgUser)
    (hm : u.message = some m) (hu : u.effective_user = some user) :
    start_command u =
      .ok [.reply_text m.chat_id (welcome_message user.first_name) none]
  ∧ (∃ p q, welcome_message user.first_name = p ++ user.first_name ++ q)
  ∧ (∃ p q, welcome_message user.first_name = p ++ "/start" ++ q)
  ∧ (∃ p q, welcome_message user.first_name = p ++ "/help" ++ q)
  ∧ (∃ p q, welcome_message user.first_name = p ++ "/about" ++ q) := by
  refine ⟨by simp [start_command, hm, hu],
    ⟨"\n👋 Bun venit, ", welcome_tail, rfl⟩, ?_, ?_, ?_⟩
  · refine ⟨"\n👋 Bun venit, " ++ user.first_name ++
      "!\n\nEu sunt asistentul tău AI. Pot să:\n• 💬 Vorbesc cu tine despre orice\n• 🧠 Îți răspund la întrebări\n• 📝 Te ajut cu sfaturi și idei\n\nTrimite-mi un mesaj și îți voi răspunde!\n    \nComenzi disponibile:\n",
      " - Acest mesaj\n/help - Ajutor și informații\n/about - Despre acest bot\n    ", ?_⟩
    simp [welcome_message, welcome_tail, String.append_assoc]
  · refine ⟨"\n👋 Bun venit, " ++ user.first_name ++
      "!\n\nEu sunt asistentul tău AI. Pot să:\n• 💬 Vorbesc cu tine despre orice\n• 🧠 Îți răspund la întrebări\n• 📝 Te ajut cu sfaturi și idei\n\nTrimite-mi un mesaj și îți voi răspunde!\n    \nComenzi disponibile:\n/start - Acest mesaj\n",
      " - Ajutor și informații\n/about - Despre acest bot\n    ", ?_⟩
    simp [welcome_message, welcome_tail, String.append_assoc]
  · refine ⟨"\n👋 Bun venit, " ++ user.first_name ++
      "!\n\nEu sunt asistentul tău AI. Pot să:\n• 💬 Vorbesc cu tine despre orice\n• 🧠 Îți răspund la întrebări\n• 📝 Te ajut cu sfaturi și idei\n\nTrimite-mi un mesaj și îți voi răspunde!\n    \nComenzi disponibile:\n/start - Acest mesaj\n/help - Ajutor și informații\n",
      " - Despre acest bot\n    ", ?_⟩
    simp [welcome_message, welcome_tail, String.append_assoc]

/-- Witness for C7: the concrete `/start` invocation by "Maria". -/
theorem C7_start_reply_witness :
    start_command update0 =
      .ok [.reply_text 1 (welcome_message "Maria") none]
  ∧ (∃ p q, welcome_message "Maria" = p ++ "Maria" ++ q) :=
  ⟨(C7_start_reply update0 ⟨"Ce faci?", 1⟩ ⟨"Maria"⟩ rfl rfl).1,
   (C7_start_reply update0 ⟨"Ce faci?", 1⟩ ⟨"Maria"⟩ rfl rfl).2.1⟩

/-- C8: with the corresponding environment variables unset, the
configuration values default to model "gpt-3.5-turbo", 500 max tokens and
temperature 0.7; when set, the supplied value is used — max tokens through
the `int` builtin, temperature through the `float` builtin. -/
theorem C8_config_defaults (env : Env) (pint : String → Except String Int)
    (pfloat : String → Except String ℚ) :
    (env "AI_MODEL" = none → AI_MODEL env = "gpt-3.5-turbo")
  ∧ (∀ s, env "AI_MODEL" = some s → AI_MODEL env = s)
  ∧ (env "AI_MAX_TOKENS" = none → AI_MAX_TOKENS env pint = .ok 500)
  ∧ (∀ s, env "AI_MAX_TOKENS" = some s → AI_MAX_TOKENS env pint = pint s)
  ∧ (env "AI_TEMPERATURE" = none → AI_TEMPERATURE env pfloat = .ok (7/10 : ℚ))
  ∧ (∀ s, env "AI_TEMPERATURE" = some s →
      AI_TEMPERATURE env pfloat = pfloat s) := by
  refine ⟨?_, ?_, ?_, ?_, ?_, ?_⟩ <;> intros <;>
    simp_all [AI_MODEL, AI_MAX_TOKENS, AI_TEMPERATURE]

/-- Witness for C8: the empty environment yields all three defaults. -/
theorem C8_config_defaults_witness :
    AI_MODEL env_empty = "gpt-3.5-turbo"
  ∧ AI_MAX_TOKENS env_empty pint0 = .ok 500
  ∧ AI_TEMPERATURE env_empty pfloat0 = .ok (7/10 : ℚ) :=
  ⟨(C8_config_defaults env_empty pint0 pfloat0).1 rfl,
   (C8_config_defaults env_empty pint0 pfloat0).2.2.1 rfl,
   (C8_config_defaults env_empty pint0 pfloat0).2.2.2.2.1 rfl⟩

/-- C10: two-run noninterference — across any two well-formed inbound
updates, regardless of sender identity or message content, the `/help` and
`/about` reply texts are the same fixed constants. -/
theorem C10_static_replies (u₁ u₂ : TgUpdate) (m₁ m₂ : TgMessage)
    (hm₁ : u₁.message = some m₁) (hm₂ : u₂.message = some m₂) :
    handler_reply_texts (help_command u₁) = [help_text]
  ∧ handler_reply_texts (help_command u₂) = [help_text]
  ∧ handler_reply_texts (help_command u₁) = handler_reply_texts (help_command u₂)
  ∧ handler_reply_texts (about_command u₁) = [about_text]
  ∧ handler_reply_texts (about_command u₂) = [about_text]
  ∧ handler_reply_texts (about_command u₁)
      = handler_reply_texts (about_command u₂) := by
  simp [help_command, about_command, handler_reply_texts, reply_texts, hm₁, hm₂]

/-- Witness for C10: two concrete updates with different senders, chats and
texts receive identical `/help` and `/about` replies. -/
theorem C10_static_replies_witness :
    handler_reply_texts (help_command update0) = [help_text]
  ∧ handler_reply_texts (about_command ⟨some ⟨"Hello", 9⟩, some ⟨"Ion"⟩, none⟩)
      = [about_text] :=
  ⟨(C10_static_replies update0 ⟨some ⟨"Hello", 9⟩, some ⟨"Ion"⟩, none⟩
      ⟨"Ce faci?", 1⟩ ⟨"Hello", 9⟩ rfl rfl).1,
   (C10_static_replies update0 ⟨some ⟨"Hello", 9⟩, some ⟨"Ion"⟩, none⟩
      ⟨"Ce faci?", 1⟩ ⟨"Hello", 9⟩ rfl rfl).2.2.2.2.1⟩

end AiTelegramBot
